import Mathlib

/-!
Verification of the proximity-filtered task board of the community
application (src/src/pages/Auth.tsx, both task-board revisions in that
file, together with the storage schema in supabase/migrations).

The embedding models:
  * `calculateDistance`  — the Haversine helper (Auth.tsx lines 354-367
    and 827-836; both revisions compute the same formula);
  * the proximity filter inside `fetchTasks` (lines 385-398 and 863-870);
  * the task mutations `handleCreateTask`, `handleAcceptTask`,
    `handleCompleteTask`, `handleDeleteTask` (lines 875-966), acting on
    the stored task list, plus the guards under which the UI renders the
    corresponding controls (lines 1173-1195);
  * `fetchTasks`'s error path (lines 380-383 / 846).

JavaScript numbers are modelled as real numbers; a nullable numeric
column is `Option ℝ`, and the JS falsiness test `!x` on such a column
holds exactly when the value is `none` or `some 0`.
-/

namespace CommuLink

/-- Task lifecycle status, the `task_status` enum of the storage schema:
CREATE TYPE task_status AS ENUM ('open', 'in_progress', 'completed', 'cancelled'). -/
inductive TaskStatus where
| open' : TaskStatus
| in_progress : TaskStatus
| completed : TaskStatus
| cancelled : TaskStatus
deriving DecidableEq, Repr

/-- A task row as exchanged with storage (the `Task` interface of
Auth.tsx lines 279-294 / 753-767; the joined `profiles` display name is
omitted as presentation-only). -/
structure Task where
  id : String
  title : String
  description : String
  payment_amount : Option ℝ
  location_lat : Option ℝ
  location_lng : Option ℝ
  location_address : Option String
  status : TaskStatus
  created_at : String
  creator_id : String
  accepted_by : Option String

/-- The viewer's current coordinate (`userLocation` state, `{lat, lng}`). -/
structure Coord where
  lat : ℝ
  lng : ℝ

/-- JavaScript `Math.atan2 y x`: the angle of the point `(x, y)`,
following the IEEE special cases for the axes. -/
noncomputable def atan2 (y x : ℝ) : ℝ :=
  if 0 < x then Real.arctan (y / x)
  else if x < 0 then
    (if 0 ≤ y then Real.arctan (y / x) + Real.pi else Real.arctan (y / x) - Real.pi)
  else
    (if 0 < y then Real.pi / 2 else if y < 0 then -(Real.pi / 2) else 0)

/-- `calculateDistance` (Auth.tsx lines 354-367; identically at 827-836):
Haversine great-circle distance in meters, Earth radius R = 6371e3 m.
The local names φ1, φ2, dφ, dLam mirror the source's φ1, φ2, Δφ, Δλ. -/
noncomputable def calculateDistance (lat1 lon1 lat2 lon2 : ℝ) : ℝ :=
  let R : ℝ := 6371000
  let φ1 := lat1 * Real.pi / 180
  let φ2 := lat2 * Real.pi / 180
  let dφ := (lat2 - lat1) * Real.pi / 180
  let dLam := (lon2 - lon1) * Real.pi / 180
  let a := Real.sin (dφ / 2) * Real.sin (dφ / 2) +
    Real.cos φ1 * Real.cos φ2 * (Real.sin (dLam / 2) * Real.sin (dLam / 2))
  let c := 2 * atan2 (Real.sqrt a) (Real.sqrt (1 - a))
  R * c

/-- The per-task predicate of the proximity filter (Auth.tsx lines
388-397 / 865-869):
`if (!task.location_lat || !task.location_lng) return true;` then
`return distance <= 50`.  A coordinate is JS-falsy when it is `none`
(null) or `some 0`. -/
noncomputable def taskPasses (v : Coord) (t : Task) : Bool :=
  match t.location_lat, t.location_lng with
  | some la, some ln =>
    if la = 0 then true
    else if ln = 0 then true
    else decide (calculateDistance v.lat v.lng la ln ≤ 50)
  | _, _ => true

/-- The proximity filter applied by `fetchTasks` (lines 385-398 /
863-870): when a viewer location is available, keep only the tasks that
pass `taskPasses`; otherwise the candidate list is untouched. -/
noncomputable def proximityFilter (viewer : Option Coord) (ts : List Task) : List Task :=
  match viewer with
  | none => ts
  | some v => ts.filter (fun t => taskPasses v t)

/-- The display-state transition of `fetchTasks` (lines 369-400 /
838-872): on a storage error the handler returns early without calling
`setTasks`, so the previous display list stays; on success the fetched
candidate list is proximity-filtered and replaces the display list. -/
noncomputable def fetchTasks (prev : List Task) (viewer : Option Coord)
    (resp : Except String (List Task)) : List Task :=
  match resp with
  | Except.error _ => prev
  | Except.ok data => proximityFilter viewer data

/-- `handleCreateTask` (lines 875-909): the inserted row — status 'open',
`accepted_by` not supplied (so null in storage). -/
def createTask (creator id title description : String) (payment : Option ℝ)
    (lat lng : Option ℝ) (addr : Option String) (created : String) : Task :=
  { id := id, title := title, description := description,
    payment_amount := payment, location_lat := lat, location_lng := lng,
    location_address := addr, status := TaskStatus.open',
    created_at := created, creator_id := creator, accepted_by := none }

/-- Effect of `handleAcceptTask`'s update on the matched row (lines
932-937 / 443-448): `update({ accepted_by: user.id, status: 'in_progress' })`,
with no condition on the row's current status. -/
def acceptOp (u : String) (t : Task) : Task :=
  { t with accepted_by := some u, status := TaskStatus.in_progress }

/-- Effect of `handleCompleteTask`'s update on the matched row (lines
950-953 / 465-470): `update({ status: 'completed' })`, with no condition
on the row's current status. -/
def completeOp (t : Task) : Task :=
  { t with status := TaskStatus.completed }

/-- `handleAcceptTask` (lines 932-943) on the stored list: the update is
applied to every row matching `.eq('id', taskId)`. -/
def handleAcceptTask (u : String) (taskId : String) (ts : List Task) : List Task :=
  ts.map (fun t => if t.id = taskId then acceptOp u t else t)

/-- `handleCompleteTask` (lines 945-966) on the stored list: the update
is applied to every row matching `.eq('id', taskId)`. -/
def handleCompleteTask (taskId : String) (ts : List Task) : List Task :=
  ts.map (fun t => if t.id = taskId then completeOp t else t)

/-- `handleDeleteTask` (lines 911-930) on the stored list:
`.delete().eq('id', taskToDelete.id).eq('creator_id', user.id)` removes
exactly the rows matching both conditions; there is no status condition. -/
def handleDeleteTask (uid : String) (taskId : String) (ts : List Task) : List Task :=
  ts.filter (fun t => ¬(t.id = taskId ∧ t.creator_id = uid))

/-- The accept action as invocable through the UI: the Accept button is
rendered only when `task.status === 'open' && task.creator_id !== user.id`
(lines 690-694 / 1181-1185); clicking it runs `handleAcceptTask`. -/
def uiAcceptTask (u : String) (t : Task) (ts : List Task) : List Task :=
  if t.status = TaskStatus.open' ∧ t.creator_id ≠ u then handleAcceptTask u t.id ts else ts

/-- The delete action as invocable through the UI: the Delete button is
rendered only when `task.creator_id === user.id && task.status === 'open'`
(lines 1173-1178); confirming runs `handleDeleteTask`. -/
def uiDeleteTask (uid : String) (t : Task) (ts : List Task) : List Task :=
  if t.creator_id = uid ∧ t.status = TaskStatus.open' then handleDeleteTask uid t.id ts else ts

/-- The accept transition on a single task record, gated as in the UI. -/
def uiAcceptOp (u : String) (t : Task) : Task :=
  if t.status = TaskStatus.open' ∧ t.creator_id ≠ u then acceptOp u t else t

/-- The complete transition on a single task record, gated as in the UI:
the Mark Complete / Confirm Done buttons are rendered only when
`task.status === 'in_progress'` and the actor is the accepter or the
creator (lines 695-700 / 1186-1195). -/
def uiCompleteOp (u : String) (t : Task) : Task :=
  if t.status = TaskStatus.in_progress ∧ (t.accepted_by = some u ∨ t.creator_id = u)
  then completeOp t else t

/-- Task states reachable from a fresh creation by the bare mutation
operations (the handlers' storage updates, unguarded). -/
inductive Reachable : Task → Prop where
| created : ∀ creator id title description payment lat lng addr ca,
    Reachable (createTask creator id title description payment lat lng addr ca)
| accepted : ∀ u t, Reachable t → Reachable (acceptOp u t)
| finished : ∀ t, Reachable t → Reachable (completeOp t)

/-- Task states reachable from a fresh creation by the operations as
invocable through the UI (accept offered only on open tasks of other
users, complete only on in_progress tasks by a party to the task). -/
inductive ReachableUI : Task → Prop where
| created : ∀ creator id title description payment lat lng addr ca,
    ReachableUI (createTask creator id title description payment lat lng addr ca)
| accepted : ∀ u t, ReachableUI t → ReachableUI (uiAcceptOp u t)
| finished : ∀ u t, ReachableUI t → ReachableUI (uiCompleteOp u t)

/-- The §3 invariant: `accepted_by` is set iff status ∈ {in_progress, completed}. -/
def acceptedIffActive (t : Task) : Prop :=
  t.accepted_by ≠ none ↔ (t.status = TaskStatus.in_progress ∨ t.status = TaskStatus.completed)

/- Helper lemma: filtering twice with one predicate equals filtering once. -/
theorem filter_idem {α : Type} (p : α → Bool) (l : List α) :
    (l.filter p).filter p = l.filter p := by
  induction l with
  | nil => rfl
  | cons x xs ih =>
    by_cases hx : p x
    · simp [List.filter, hx, ih]
    · simp [List.filter, hx, ih]

/-- C5: when the viewer location is absent the proximity filter is the
identity: the candidate list is returned unchanged, in order. -/
theorem proximityFilter_none_id (ts : List Task) :
    proximityFilter none ts = ts := rfl

/-- C9: on a transient storage list failure the fetch leaves the prior
display state intact: the previously displayed list is returned unchanged. -/
theorem fetchTasks_error_keeps_prev (prev : List Task) (viewer : Option Coord) (e : String) :
    fetchTasks prev viewer (Except.error e) = prev := rfl

/-- C6: a task with null location (both coordinates absent) is included
by the proximity filter for every viewer location. -/
theorem filter_includes_null_location (v : Coord) (ts : List Task) (t : Task)
    (hla : t.location_lat = none) (hln : t.location_lng = none) :
    t ∈ proximityFilter (some v) ts ↔ t ∈ ts := by
  simp [proximityFilter, List.mem_filter, taskPasses, hla, hln]

/-- Witness for C6 at a concrete task and viewer. -/
theorem filter_includes_null_location_witness :
    ({ id := "t1", title := "a", description := "b", payment_amount := none,
       location_lat := none, location_lng := none, location_address := none,
       status := TaskStatus.open', created_at := "c", creator_id := "u1",
       accepted_by := none : Task } ∈
      proximityFilter (some ⟨14.5995, 120.9842⟩)
        [{ id := "t1", title := "a", description := "b", payment_amount := none,
           location_lat := none, location_lng := none, location_address := none,
           status := TaskStatus.open', created_at := "c", creator_id := "u1",
           accepted_by := none : Task }]) ↔
    ({ id := "t1", title := "a", description := "b", payment_amount := none,
       location_lat := none, location_lng := none, location_address := none,
       status := TaskStatus.open', created_at := "c", creator_id := "u1",
       accepted_by := none : Task } ∈
      [{ id := "t1", title := "a", description := "b", payment_amount := none,
         location_lat := none, location_lng := none, location_address := none,
         status := TaskStatus.open', created_at := "c", creator_id := "u1",
         accepted_by := none : Task }]) :=
  filter_includes_null_location ⟨14.5995, 120.9842⟩ _ _ rfl rfl

/-- C8: the proximity filter is idempotent: filtering an already filtered
list with the same viewer location (and the fixed 50 m threshold) yields
the same list. -/
theorem proximityFilter_idem (viewer : Option Coord) (ts : List Task) :
    proximityFilter viewer (proximityFilter viewer ts) = proximityFilter viewer ts := by
  cases viewer with
  | none => rfl
  | some v => exact filter_idem _ ts

/-- C7: the great-circle distance function is symmetric in its two
coordinate arguments. -/
theorem calculateDistance_symm (lat1 lon1 lat2 lon2 : ℝ) :
    calculateDistance lat1 lon1 lat2 lon2 = calculateDistance lat2 lon2 lat1 lon1 := by
  simp only [calculateDistance]
  have h1 : (lat1 - lat2) * Real.pi / 180 = -((lat2 - lat1) * Real.pi / 180) := by ring
  have h2 : (lon1 - lon2) * Real.pi / 180 = -((lon2 - lon1) * Real.pi / 180) := by ring
  rw [h1, h2]
  simp only [neg_div, Real.sin_neg]
  ring_nf

/-- C10: a task one of whose stored coordinates is present but equal to 0
is included by the proximity filter for every viewer location: the JS
falsiness test `!task.location_lat || !task.location_lng` treats the
value 0 like null. -/
theorem zero_coordinate_always_passes (v : Coord) (t : Task)
    (h : t.location_lat = some 0 ∨ t.location_lng = some 0) :
    taskPasses v t = true := by
  rcases h with h | h
  · cases hln : t.location_lng with
    | none => simp [taskPasses, h, hln]
    | some ln => simp [taskPasses, h, hln]
  · cases hla : t.location_lat with
    | none => simp [taskPasses, h, hla]
    | some la =>
      by_cases hz : la = 0
      · simp [taskPasses, h, hla, hz]
      · simp [taskPasses, h, hla, hz]

/-- Witness for C10 at a concrete task on the equator far from the viewer. -/
theorem zero_coordinate_always_passes_witness :
    taskPasses ⟨14.5995, 120.9842⟩
      { id := "tz", title := "a", description := "b", payment_amount := none,
        location_lat := some 0, location_lng := some 120.9842,
        location_address := none, status := TaskStatus.open', created_at := "c",
        creator_id := "u1", accepted_by := none } = true :=
  zero_coordinate_always_passes ⟨14.5995, 120.9842⟩ _ (Or.inl rfl)

/-- C1 counterexample: a task whose location is present but lies on the
equator (location_lat = 0, location_lng = 180) is included by the filter
for a viewer at (0, 0), although the Haversine distance between the two
points is 6371000·π meters, far more than 50.  So inclusion is not
equivalent to distance ≤ 50 for every task with a present location. -/
theorem c1_zero_latitude_counterexample :
    taskPasses ⟨0, 0⟩
      { id := "te", title := "a", description := "b", payment_amount := none,
        location_lat := some 0, location_lng := some 180,
        location_address := none, status := TaskStatus.open', created_at := "c",
        creator_id := "u1", accepted_by := none } = true ∧
    ¬(calculateDistance 0 0 0 180 ≤ 50) := by
  constructor
  · simp [taskPasses]
  · have hdist : calculateDistance 0 0 0 180 = 6371000 * Real.pi := by
      simp only [calculateDistance]
      have e1 : ((0:ℝ) - 0) * Real.pi / 180 / 2 = 0 := by ring
      have e2 : ((180:ℝ) - 0) * Real.pi / 180 / 2 = Real.pi / 2 := by ring
      have e3 : (0:ℝ) * Real.pi / 180 = 0 := by ring
      rw [e1, e2, e3, Real.sin_zero, Real.cos_zero, Real.sin_pi_div_two]
      have e4 : (0:ℝ) * 0 + 1 * 1 * (1 * 1) = 1 := by norm_num
      rw [e4]
      have e5 : (1:ℝ) - 1 = 0 := by norm_num
      rw [e5, Real.sqrt_zero, Real.sqrt_one]
      have e6 : atan2 1 0 = Real.pi / 2 := by
        simp [atan2]
      rw [e6]
      ring
    rw [hdist]
    have hpi := Real.pi_gt_three
    intro hle
    nlinarith

/-- C1 as amended: for a task both of whose coordinates are present and
nonzero, the proximity filter includes the task exactly when the
Haversine distance from the viewer is at most 50 meters (the boundary is
inclusive at exactly 50); a present coordinate equal to 0 is treated by
the falsy check as an absent location and such tasks pass unconditionally. -/
theorem taskPasses_iff_within_50 (v : Coord) (t : Task) (la ln : ℝ)
    (hla : t.location_lat = some la) (hln : t.location_lng = some ln)
    (hza : la ≠ 0) (hzn : ln ≠ 0) :
    taskPasses v t = true ↔ calculateDistance v.lat v.lng la ln ≤ 50 := by
  simp [taskPasses, hla, hln, hza, hzn]

/-- Witness for the amended C1 at a concrete viewer and task. -/
theorem taskPasses_iff_within_50_witness :
    (taskPasses ⟨14.5995, 120.9842⟩
      { id := "tw", title := "a", description := "b", payment_amount := none,
        location_lat := some 14.5999, location_lng := some 120.9842,
        location_address := none, status := TaskStatus.open', created_at := "c",
        creator_id := "u1", accepted_by := none } = true) ↔
    calculateDistance 14.5995 120.9842 14.5999 120.9842 ≤ 50 :=
  taskPasses_iff_within_50 ⟨14.5995, 120.9842⟩ _ 14.5999 120.9842 rfl rfl
    (by norm_num) (by norm_num)

/-- C2 counterexample: the bare complete update applied directly to a
freshly created task is a reachable operation sequence (create; complete)
whose result has status completed and accepted_by null, so the invariant
fails for the unguarded operations. -/
theorem c2_create_complete_counterexample :
    Reachable (completeOp (createTask "u1" "t1" "a" "b" none none none none "c")) ∧
    (completeOp (createTask "u1" "t1" "a" "b" none none none none "c")).status =
      TaskStatus.completed ∧
    (completeOp (createTask "u1" "t1" "a" "b" none none none none "c")).accepted_by = none ∧
    ¬ acceptedIffActive (completeOp (createTask "u1" "t1" "a" "b" none none none none "c")) := by
  refine ⟨Reachable.finished _ (Reachable.created "u1" "t1" "a" "b" none none none none "c"),
    rfl, rfl, ?_⟩
  simp [acceptedIffActive, completeOp, createTask]

/-- C2 as amended: the invariant 'accepted_by is set iff status is
in_progress or completed' holds for every task state reachable from a
fresh creation via the operations as the UI offers them — accept only on
an open task of another user, complete only on an in_progress task by the
accepter or the creator.  (The bare storage updates are unguarded, and
create followed by the bare complete update violates the invariant.) -/
theorem reachableUI_invariant (t : Task) (h : ReachableUI t) : acceptedIffActive t := by
  induction h with
  | created creator id title description payment lat lng addr ca =>
    simp [acceptedIffActive, createTask]
  | accepted u t ht ih =>
    by_cases hg : t.status = TaskStatus.open' ∧ t.creator_id ≠ u
    · simp only [uiAcceptOp]
      rw [if_pos hg]
      simp [acceptedIffActive, acceptOp]
    · simp only [uiAcceptOp]
      rw [if_neg hg]
      exact ih
  | finished u t ht ih =>
    by_cases hg : t.status = TaskStatus.in_progress ∧
        (t.accepted_by = some u ∨ t.creator_id = u)
    · have hab : t.accepted_by ≠ none := ih.mpr (Or.inl hg.1)
      simp only [uiCompleteOp]
      rw [if_pos hg]
      simp [acceptedIffActive, completeOp, hab]
    · simp only [uiCompleteOp]
      rw [if_neg hg]
      exact ih

/-- Witness for the amended C2: create then UI-accept, invariant holds. -/
theorem reachableUI_invariant_witness :
    acceptedIffActive (uiAcceptOp "u2" (createTask "u1" "t1" "a" "b" none none none none "c")) :=
  reachableUI_invariant _
    (ReachableUI.accepted "u2" _ (ReachableUI.created "u1" "t1" "a" "b" none none none none "c"))

/-- C3 counterexample: a delete issued by the creator on a task whose
status is in_progress removes the task — neither the handler nor the
storage delete carries a status condition, so the task is not left in
place. -/
theorem c3_delete_in_progress_counterexample :
    handleDeleteTask "u1" "t1"
      [{ id := "t1", title := "a", description := "b", payment_amount := none,
         location_lat := none, location_lng := none, location_address := none,
         status := TaskStatus.in_progress, created_at := "c", creator_id := "u1",
         accepted_by := some "u2" }] = [] ∧
    ({ id := "t1", title := "a", description := "b", payment_amount := none,
       location_lat := none, location_lng := none, location_address := none,
       status := TaskStatus.in_progress, created_at := "c", creator_id := "u1",
       accepted_by := some "u2" : Task }).status ≠ TaskStatus.open' := by
  constructor
  · simp [handleDeleteTask]
  · simp

/-- C3 as amended: the delete update removes rows matching the task id
and the requesting creator with no status condition; the while-open
restriction lives in the UI, which offers the Delete control only on the
creator's own open tasks — so a delete invoked through the UI leaves the
list unchanged unless the actor is the creator and the task is open, and
in that case the targeted task is removed. -/
theorem uiDeleteTask_spec (uid : String) (t : Task) (ts : List Task) :
    (¬(t.creator_id = uid ∧ t.status = TaskStatus.open') → uiDeleteTask uid t ts = ts) ∧
    ((t.creator_id = uid ∧ t.status = TaskStatus.open') →
      ∀ r ∈ uiDeleteTask uid t ts, ¬(r.id = t.id ∧ r.creator_id = uid)) := by
  constructor
  · intro h
    simp only [uiDeleteTask]
    rw [if_neg h]
  · intro h r hr
    simp only [uiDeleteTask] at hr
    rw [if_pos h] at hr
    simp only [handleDeleteTask, List.mem_filter] at hr
    exact of_decide_eq_true hr.2

/-- Witness for the amended C3: the UI delete on an in_progress task of
the same creator leaves the stored list unchanged. -/
theorem uiDeleteTask_spec_witness :
    uiDeleteTask "u1"
      { id := "t1", title := "a", description := "b", payment_amount := none,
        location_lat := none, location_lng := none, location_address := none,
        status := TaskStatus.in_progress, created_at := "c", creator_id := "u1",
        accepted_by := some "u2" }
      [{ id := "t1", title := "a", description := "b", payment_amount := none,
         location_lat := none, location_lng := none, location_address := none,
         status := TaskStatus.in_progress, created_at := "c", creator_id := "u1",
         accepted_by := some "u2" }] =
    [{ id := "t1", title := "a", description := "b", payment_amount := none,
       location_lat := none, location_lng := none, location_address := none,
       status := TaskStatus.in_progress, created_at := "c", creator_id := "u1",
       accepted_by := some "u2" }] :=
  (uiDeleteTask_spec "u1" _ _).1 (by simp)

/-- C4 counterexample: the accept update applied to a task whose status
is completed does not leave it unchanged — it overwrites accepted_by with
the new user and moves the status back to in_progress, because the update
matches on id only. -/
theorem c4_accept_completed_counterexample :
    (handleAcceptTask "u9" "t1"
      [{ id := "t1", title := "a", description := "b", payment_amount := none,
         location_lat := none, location_lng := none, location_address := none,
         status := TaskStatus.completed, created_at := "c", creator_id := "u1",
         accepted_by := some "u5" }]).map Task.status = [TaskStatus.in_progress] ∧
    (handleAcceptTask "u9" "t1"
      [{ id := "t1", title := "a", description := "b", payment_amount := none,
         location_lat := none, location_lng := none, location_address := none,
         status := TaskStatus.completed, created_at := "c", creator_id := "u1",
         accepted_by := some "u5" }]).map Task.accepted_by = [some "u9"] ∧
    ({ id := "t1", title := "a", description := "b", payment_amount := none,
       location_lat := none, location_lng := none, location_address := none,
       status := TaskStatus.completed, created_at := "c", creator_id := "u1",
       accepted_by := some "u5" : Task }).status ≠ TaskStatus.open' := by
  refine ⟨?_, ?_, by simp⟩
  · simp [handleAcceptTask, acceptOp]
  · simp [handleAcceptTask, acceptOp]

/-- C4 as amended: the accept update itself is unconditional on status
(it matches on task id only); the only-while-open restriction is enforced
by the UI, which renders the Accept control only for open tasks of other
users.  Hence accept invoked through the UI leaves the list unchanged
when the task is not open, and on an open task of another user it sets
accepted_by to the accepting user and status to in_progress on the
matching rows. -/
theorem uiAcceptTask_spec (u : String) (t : Task) (ts : List Task) :
    (t.status ≠ TaskStatus.open' → uiAcceptTask u t ts = ts) ∧
    (t.status = TaskStatus.open' → t.creator_id ≠ u →
      (uiAcceptTask u t ts).map (fun r => (r.id, r.status, r.accepted_by)) =
        ts.map (fun r =>
          if r.id = t.id then (r.id, TaskStatus.in_progress, some u)
          else (r.id, r.status, r.accepted_by))) := by
  constructor
  · intro h
    simp only [uiAcceptTask]
    rw [if_neg]
    intro hc
    exact h hc.1
  · intro h1 h2
    simp only [uiAcceptTask]
    rw [if_pos ⟨h1, h2⟩]
    simp only [handleAcceptTask, List.map_map]
    congr 1
    funext r
    by_cases hid : r.id = t.id
    · simp [Function.comp, hid, acceptOp]
    · simp [Function.comp, hid]

/-- Witness for the amended C4: the UI accept on a completed task leaves
the stored list unchanged. -/
theorem uiAcceptTask_spec_witness :
    uiAcceptTask "u9"
      { id := "t1", title := "a", description := "b", payment_amount := none,
        location_lat := none, location_lng := none, location_address := none,
        status := TaskStatus.completed, created_at := "c", creator_id := "u1",
        accepted_by := some "u5" }
      [{ id := "t1", title := "a", description := "b", payment_amount := none,
         location_lat := none, location_lng := none, location_address := none,
         status := TaskStatus.completed, created_at := "c", creator_id := "u1",
         accepted_by := some "u5" }] =
    [{ id := "t1", title := "a", description := "b", payment_amount := none,
       location_lat := none, location_lng := none, location_address := none,
       status := TaskStatus.completed, created_at := "c", creator_id := "u1",
       accepted_by := some "u5" }] :=
  (uiAcceptTask_spec "u9" _ _).1 (by simp)

end CommuLink
